import Mathlib

/-!
Verification of the cosmic-ray work-item core: the WorkItem and WorkResult
value types, the string-valued outcome enumerations, the tagged-envelope
JSON codec, and the unittest-based discovery test runner.

The Python source (src/cosmic_ray/work_item.py and
cosmic_ray/testing/unittest_runner.py) is shallowly embedded below.
Python values that flow through the codec are modelled by the mutually
inductive type PyVal (with PyList and PyDict for the nested sequences and
string-keyed mappings), and JSON documents by JVal (with JList and JObj).
Python tuples and lists are both modelled by the seq constructor, tagged
with a SeqKind, because Python equality distinguishes them while JSON
serialization collapses both to arrays.  Python strings are modelled by
PyStr, which records whether the string is a plain str or a member of a
str-mixin Enum; Python equality on such values compares only the
character content, which is what PyStr.content captures.  Numeric JSON
literals are modelled as integers (the fragment of JSON the codec is used
on never contains floating point numbers).
-/

/-- Distinguishes Python tuples from Python lists.  JSON encoding maps both
to arrays; Python equality keeps them distinct. -/
inductive SeqKind where
  | tuple
  | list
deriving DecidableEq, Repr

/-- A Python string value: either a plain str or a member of a str-mixin
Enum (class StrEnum(str, enum.Enum) in work_item.py).  A str-mixin enum
member compares equal, under Python equality, to any str with the same
characters, so Python equality on PyStr compares content only. -/
inductive PyStr where
  | plain (s : String)
  | enumv (s : String)
deriving DecidableEq, Repr

/-- The character content of a Python string value. -/
def PyStr.content : PyStr → String
  | .plain s => s
  | .enumv s => s

/-- A (line, column) position as passed to WorkItem: a two-element Python
sequence of integers, either a tuple or a list. -/
structure PyPos where
  kind : SeqKind
  line : Int
  col : Int
deriving DecidableEq, Repr

/-- WorkerOutcome from work_item.py: possible outcomes for a worker. -/
inductive WorkerOutcome where
  | NORMAL
  | EXCEPTION
  | ABNORMAL
  | NO_TEST
  | SKIPPED
deriving DecidableEq, Repr

/-- The wire string value of each WorkerOutcome member, exactly as written
in work_item.py. -/
def WorkerOutcome.value : WorkerOutcome → String
  | .NORMAL => "normal"
  | .EXCEPTION => "exception"
  | .ABNORMAL => "abnormal"
  | .NO_TEST => "no-test"
  | .SKIPPED => "skipped"

/-- A WorkerOutcome member as a Python value: a str-mixin enum member
carrying its wire string. -/
def WorkerOutcome.py (o : WorkerOutcome) : PyStr :=
  .enumv o.value

/-- TestOutcome from work_item.py: possible outcomes for a mutant test run. -/
inductive TestOutcome where
  | SURVIVED
  | KILLED
  | INCOMPETENT
deriving DecidableEq, Repr

/-- The wire string value of each TestOutcome member. -/
def TestOutcome.value : TestOutcome → String
  | .SURVIVED => "survived"
  | .KILLED => "killed"
  | .INCOMPETENT => "incompetent"

/-- A TestOutcome member as a Python value. -/
def TestOutcome.py (o : TestOutcome) : PyStr :=
  .enumv o.value

/-!
Path normalization.  WorkItem stores pathlib.Path(module_path) and
as_dict renders str of that Path.  On POSIX, constructing a PurePosixPath
from a string and rendering it back collapses repeated slashes, drops
single-dot components and trailing slashes, maps the empty string to a
single dot, and keeps a double (but not triple or more) leading slash.
The functions below model str(pathlib.Path(s)) at the character level.
-/

/-- Split a character list on the slash character.  Mirrors how a POSIX
path string is divided into components (the result always has at least
one, possibly empty, part). -/
def splitSlash : List Char → List (List Char)
  | [] => [[]]
  | c :: rest =>
    if c = '/' then [] :: splitSlash rest
    else
      match splitSlash rest with
      | [] => [[c]]
      | p :: ps => (c :: p) :: ps

/-- Join path components with single slashes. -/
def joinSlash : List (List Char) → List Char
  | [] => []
  | [p] => p
  | p :: ps => p ++ '/' :: joinSlash ps

/-- The root prefix pathlib keeps for a POSIX path: two leading slashes
are preserved verbatim, any other positive number of leading slashes
collapses to one, and no leading slash gives no root. -/
def rootOf : List Char → List Char
  | '/' :: '/' :: '/' :: _ => ['/']
  | '/' :: '/' :: _ => ['/', '/']
  | '/' :: _ => ['/']
  | _ => []

/-- Keep exactly the path components pathlib keeps: nonempty ones other
than a single dot. -/
def keepComp (p : List Char) : Bool :=
  decide (p ≠ []) && decide (p ≠ ['.'])

/-- Normalize the characters of a path string the way
str(pathlib.PurePosixPath(s)) does. -/
def normChars (cs : List Char) : List Char :=
  let comps := (splitSlash cs).filter keepComp
  let root := rootOf cs
  if root = [] ∧ comps = [] then ['.'] else root ++ joinSlash comps

/-- Model of str(pathlib.Path(s)) on POSIX. -/
def pathNorm (s : String) : String :=
  String.mk (normChars s.data)

/-!
The two value classes.  The structures record the state stored by the
Python constructors; the make functions model the constructors themselves,
including their validation, returning an error exactly where the Python
code raises.
-/

/-- State of a WorkItem instance.  module_path holds the string rendering
of the stored pathlib.Path, so it is always in pathNorm normal form for
instances produced by WorkItem.make. -/
structure WorkItem where
  module_path : String
  operator_name : Option String
  occurrence : Option Int
  start_pos : PyPos
  end_pos : PyPos
  job_id : Option String
deriving DecidableEq, Repr

/-- Model of the WorkItem constructor: validates the span ordering
(start line strictly before end line, or same line and start column
strictly before end column), then stores pathlib.Path(module_path) and
the remaining fields unchanged. -/
def WorkItem.make (module_path : String) (operator_name : Option String)
    (occurrence : Option Int) (start_pos : PyPos) (end_pos : PyPos)
    (job_id : Option String) : Except String WorkItem :=
  if start_pos.line > end_pos.line then
    .error "Start line must not be after end line"
  else if start_pos.line = end_pos.line ∧ start_pos.col ≥ end_pos.col then
    .error "End position must come after start position."
  else
    .ok ⟨pathNorm module_path, operator_name, occurrence, start_pos, end_pos, job_id⟩

/-- The span ordering invariant of WorkItem as a Boolean: construction
succeeds exactly when this holds. -/
def validSpan (start_pos end_pos : PyPos) : Bool :=
  decide (start_pos.line < end_pos.line ∨
    (start_pos.line = end_pos.line ∧ start_pos.col < end_pos.col))

/-- State of a WorkResult instance: the four stored fields. -/
structure WorkResult where
  output : Option String
  test_outcome : Option PyStr
  worker_outcome : PyStr
  diff : Option (List String)
deriving DecidableEq, Repr

/-- Model of the WorkResult constructor: rejects a missing (None) worker
outcome and otherwise stores the four fields unchanged.  The Python
parameter order is (worker_outcome, output, test_outcome, diff). -/
def WorkResult.make (worker_outcome : Option PyStr) (output : Option String)
    (test_outcome : Option PyStr) (diff : Option (List String)) :
    Except String WorkResult :=
  match worker_outcome with
  | Option.none => .error "Worker outcome must always have a value."
  | Option.some wo => .ok ⟨output, test_outcome, wo, diff⟩

/-- The is_killed property: test_outcome != TestOutcome.SURVIVED, where
the comparison is Python string-content inequality and None compares
unequal to the enum member. -/
def WorkResult.is_killed (r : WorkResult) : Bool :=
  match r.test_outcome with
  | Option.none => true
  | Option.some t => !(decide (t.content = TestOutcome.SURVIVED.value))

/-!
Python values.  PyVal covers the fragment of Python values that flows
through the codec: None, bools, ints, strings, tuples and lists,
string-keyed dicts, and the two work classes.  PyList and PyDict are
inlined list types so that all recursion below is structural over the
mutual inductive family (which keeps every definition computable by
definitional reduction).
-/

mutual
inductive PyVal where
  | none
  | bool (b : Bool)
  | int (n : Int)
  | str (s : PyStr)
  | seq (k : SeqKind) (xs : PyList)
  | dict (xs : PyDict)
  | workItem (wi : WorkItem)
  | workResult (wr : WorkResult)
deriving Repr
inductive PyList where
  | nil
  | cons (hd : PyVal) (tl : PyList)
deriving Repr
inductive PyDict where
  | nil
  | cons (key : String) (val : PyVal) (tl : PyDict)
deriving Repr
end

/-- Render an optional Python string: None or the string itself. -/
def optStrPy : Option String → PyVal
  | Option.none => .none
  | Option.some s => .str (.plain s)

/-- Render an optional Python string value that may be an enum member. -/
def optPyStrPy : Option PyStr → PyVal
  | Option.none => .none
  | Option.some s => .str s

/-- Render an optional Python integer. -/
def optIntPy : Option Int → PyVal
  | Option.none => .none
  | Option.some n => .int n

/-- Render a position as the stored two-element sequence. -/
def posPy (p : PyPos) : PyVal :=
  .seq p.kind (.cons (.int p.line) (.cons (.int p.col) .nil))

/-- Turn a Lean list of strings into a PyList of plain Python strings. -/
def pyStrList : List String → PyList
  | [] => .nil
  | s :: rest => .cons (.str (.plain s)) (pyStrList rest)

/-- Render the optional diff: None or the stored list of lines. -/
def diffPy : Option (List String) → PyVal
  | Option.none => .none
  | Option.some xs => .seq .list (pyStrList xs)

/-- WorkItem.as_dict: the canonical mapping, in the key order written in
work_item.py.  module_path is rendered through str of the stored Path,
which is the stored (already normalized) string. -/
def WorkItem.as_dict (wi : WorkItem) : PyVal :=
  .dict (.cons "module_path" (.str (.plain wi.module_path))
    (.cons "operator_name" (optStrPy wi.operator_name)
      (.cons "occurrence" (optIntPy wi.occurrence)
        (.cons "start_pos" (posPy wi.start_pos)
          (.cons "end_pos" (posPy wi.end_pos)
            (.cons "job_id" (optStrPy wi.job_id) .nil))))))

/-- WorkResult.as_dict: the canonical mapping, in the key order written in
work_item.py (output, test_outcome, worker_outcome, diff). -/
def WorkResult.as_dict (wr : WorkResult) : PyVal :=
  .dict (.cons "output" (optStrPy wr.output)
    (.cons "test_outcome" (optPyStrPy wr.test_outcome)
      (.cons "worker_outcome" (.str wr.worker_outcome)
        (.cons "diff" (diffPy wr.diff) .nil))))

/-- Python dict.get with a default of None: dicts built from parsed JSON
keep the last value bound to a repeated key, so lookup scans for the last
match. -/
def pyLookupLast (xs : PyDict) (k : String) : Option PyVal :=
  match xs with
  | .nil => Option.none
  | .cons key v tl =>
    match pyLookupLast tl k with
    | Option.some w => Option.some w
    | Option.none => if key = k then Option.some v else Option.none

/-- Number of entries of a PyDict. -/
def pyDictLen : PyDict → Nat
  | .nil => 0
  | .cons _ _ tl => pyDictLen tl + 1

/-- Field-level equality of two WorkItem states, exactly the comparison
performed by comparing their as_dict renderings. -/
def wiFieldsEq (a b : WorkItem) : Bool :=
  decide (a.module_path = b.module_path) &&
  decide (a.operator_name = b.operator_name) &&
  decide (a.occurrence = b.occurrence) &&
  decide (a.start_pos = b.start_pos) &&
  decide (a.end_pos = b.end_pos) &&
  decide (a.job_id = b.job_id)

/-- Content of an optional Python string value (for comparisons, where
the enum flag is invisible). -/
def optContent : Option PyStr → Option String
  | Option.none => Option.none
  | Option.some s => Option.some s.content

/-- Field-level equality of two WorkResult states as Python sees it:
string fields compare by content, so an enum member equals the plain
string with the same characters. -/
def wrFieldsEq (a b : WorkResult) : Bool :=
  decide (a.output = b.output) &&
  decide (optContent a.test_outcome = optContent b.test_outcome) &&
  decide (a.worker_outcome.content = b.worker_outcome.content) &&
  decide (a.diff = b.diff)

/-!
Python equality on the PyVal fragment.  This models the == operator on
the values that appear inside as_dict renderings and parsed JSON
documents: None, bools, ints, strings (content comparison), tuples and
lists (same kind, same length, elementwise equality), and dicts (same
size and every key of the left dict bound in the right dict to an equal
value, which is order-insensitive exactly like Python dict equality).
Python bools are ints, so True equals 1 and False equals 0.
-/

mutual
def pyEqVal : PyVal → PyVal → Bool
  | .none, .none => true
  | .bool b, .bool c => decide (b = c)
  | .bool b, .int n => decide ((if b then (1 : Int) else 0) = n)
  | .int n, .bool b => decide (n = (if b then (1 : Int) else 0))
  | .int m, .int n => decide (m = n)
  | .str s, .str t => decide (s.content = t.content)
  | .seq k xs, .seq l ys => decide (k = l) && pyEqList xs ys
  | .dict xs, .dict ys => decide (pyDictLen xs = pyDictLen ys) && pyEqDict xs ys
  | .workItem a, .workItem b => wiFieldsEq a b
  | .workResult a, .workResult b => wrFieldsEq a b
  | _, _ => false
def pyEqList : PyList → PyList → Bool
  | .nil, .nil => true
  | .cons a as, .cons b bs => pyEqVal a b && pyEqList as bs
  | _, _ => false
def pyEqDict : PyDict → PyDict → Bool
  | .nil, _ => true
  | .cons k v tl, ys =>
    (match pyLookupLast ys k with
     | Option.some w => pyEqVal v w
     | Option.none => false) && pyEqDict tl ys
end

/-- The as_dict attribute as Python attribute lookup sees it: the two
work classes provide it, every other value raises AttributeError. -/
def asDictOf : PyVal → Option PyVal
  | .workItem wi => Option.some wi.as_dict
  | .workResult wr => Option.some wr.as_dict
  | _ => Option.none

/-- WorkItem.__eq__: self.as_dict() == rhs.as_dict().  Accessing as_dict
on a value that does not provide it raises AttributeError, modelled as an
error result. -/
def WorkItem.eqPy (a : WorkItem) (rhs : PyVal) : Except String Bool :=
  match asDictOf rhs with
  | Option.some d => .ok (pyEqVal a.as_dict d)
  | Option.none => .error "AttributeError: no attribute as_dict"

/-- WorkResult.__eq__: self.as_dict() == rhs.as_dict(), with the same
AttributeError behavior on values lacking as_dict. -/
def WorkResult.eqPy (a : WorkResult) (rhs : PyVal) : Except String Bool :=
  match asDictOf rhs with
  | Option.some d => .ok (pyEqVal a.as_dict d)
  | Option.none => .error "AttributeError: no attribute as_dict"

/-!
JSON documents.  json.dumps renders a tree of JSON values to text and
json.loads parses the text back to the identical tree, so the composition
of encoding and decoding is modelled directly on trees: JVal is the JSON
value tree, with JList for arrays and JObj for objects.
-/

mutual
inductive JVal where
  | null
  | bool (b : Bool)
  | num (n : Int)
  | str (s : String)
  | arr (xs : JList)
  | obj (xs : JObj)
deriving Repr
inductive JList where
  | nil
  | cons (hd : JVal) (tl : JList)
deriving Repr
inductive JObj where
  | nil
  | cons (key : String) (val : JVal) (tl : JObj)
deriving Repr
end

/-- Encode an optional string field for the envelope values. -/
def optStrJ : Option String → JVal
  | Option.none => .null
  | Option.some s => .str s

/-- Encode an optional integer field. -/
def optIntJ : Option Int → JVal
  | Option.none => .null
  | Option.some n => .num n

/-- Encode a stored position: JSON has only arrays, so tuples and lists
both serialize to an array of the two coordinates. -/
def posJ (p : PyPos) : JVal :=
  .arr (.cons (.num p.line) (.cons (.num p.col) .nil))

/-- Encode a list of strings as a JSON array. -/
def strListJ : List String → JList
  | [] => .nil
  | s :: rest => .cons (.str s) (strListJ rest)

/-- Encode the optional diff field. -/
def diffJ : Option (List String) → JVal
  | Option.none => .null
  | Option.some xs => .arr (strListJ xs)

/-- The values object of an encoded WorkItem: the JSON encoding of
WorkItem.as_dict (see encode_workItem_as_dict below). -/
def WorkItem.valuesJ (wi : WorkItem) : JVal :=
  .obj (.cons "module_path" (.str wi.module_path)
    (.cons "operator_name" (optStrJ wi.operator_name)
      (.cons "occurrence" (optIntJ wi.occurrence)
        (.cons "start_pos" (posJ wi.start_pos)
          (.cons "end_pos" (posJ wi.end_pos)
            (.cons "job_id" (optStrJ wi.job_id) .nil))))))

/-- The values object of an encoded WorkResult: the JSON encoding of
WorkResult.as_dict.  A str-mixin enum member serializes as its character
content, exactly as json.dumps renders any str instance. -/
def WorkResult.valuesJ (wr : WorkResult) : JVal :=
  .obj (.cons "output" (optStrJ wr.output)
    (.cons "test_outcome" (optStrJ (optContent wr.test_outcome))
      (.cons "worker_outcome" (.str wr.worker_outcome.content)
        (.cons "diff" (diffJ wr.diff) .nil))))

/-!
WorkItemJsonEncoder: standard structural JSON encoding, except that a
WorkItem or WorkResult anywhere in the value is replaced by the tagged
envelope containing its as_dict.
-/

mutual
def encode : PyVal → JVal
  | .none => .null
  | .bool b => .bool b
  | .int n => .num n
  | .str s => .str s.content
  | .seq _ xs => .arr (encodeList xs)
  | .dict xs => .obj (encodeDict xs)
  | .workItem wi => .obj (.cons "_type" (.str "WorkItem") (.cons "values" wi.valuesJ .nil))
  | .workResult wr => .obj (.cons "_type" (.str "WorkResult") (.cons "values" wr.valuesJ .nil))
def encodeList : PyList → JList
  | .nil => .nil
  | .cons v tl => .cons (encode v) (encodeList tl)
def encodeDict : PyDict → JObj
  | .nil => .nil
  | .cons k v tl => .cons k (encode v) (encodeDict tl)
end

/-!
Generic parsing: what json.loads produces with no object hook.  Arrays
become Python lists, objects become dicts, null becomes None.
-/

mutual
def genericParse : JVal → PyVal
  | .null => .none
  | .bool b => .bool b
  | .num n => .int n
  | .str s => .str (.plain s)
  | .arr xs => .seq .list (genericParseList xs)
  | .obj xs => .dict (genericParseObj xs)
def genericParseList : JList → PyList
  | .nil => .nil
  | .cons v tl => .cons (genericParse v) (genericParseList tl)
def genericParseObj : JObj → PyDict
  | .nil => .nil
  | .cons k v tl => .cons k (genericParse v) (genericParseObj tl)
end

/-!
The decoding hook (WorkItemJsonDecoder._decode_work_items) and the field
extraction performed by calling the constructors with the decoded values
dict as keyword arguments.  Extraction errors model the TypeError Python
raises when a decoded value does not fit the constructor parameter
(for example a missing module_path, which pathlib.Path(None) rejects).
The extraction functions cover the string-and-integer-typed fragment that
encoded envelopes produce.
-/

/-- Decode the module_path keyword: Path construction needs a string. -/
def argPath : Option PyVal → Except String String
  | Option.some (.str s) => .ok s.content
  | _ => .error "TypeError: module_path is not a string"

/-- Decode an optional string keyword (missing keys default to None). -/
def argOptStr : Option PyVal → Except String (Option String)
  | Option.none => .ok Option.none
  | Option.some .none => .ok Option.none
  | Option.some (.str s) => .ok (Option.some s.content)
  | _ => .error "TypeError: expected a string or null"

/-- Decode an optional string keyword, keeping the PyStr value. -/
def argOptPyStr : Option PyVal → Except String (Option PyStr)
  | Option.none => .ok Option.none
  | Option.some .none => .ok Option.none
  | Option.some (.str s) => .ok (Option.some s)
  | _ => .error "TypeError: expected a string or null"

/-- Decode the occurrence keyword. -/
def argOptInt : Option PyVal → Except String (Option Int)
  | Option.none => .ok Option.none
  | Option.some .none => .ok Option.none
  | Option.some (.int n) => .ok (Option.some n)
  | _ => .error "TypeError: expected an integer or null"

/-- Decode a position keyword: a two-element sequence of integers. -/
def argPos : Option PyVal → Except String PyPos
  | Option.some (.seq k (.cons (.int l) (.cons (.int c) .nil))) => .ok ⟨k, l, c⟩
  | _ => .error "TypeError: expected a pair of integers"

/-- Extract the strings of a decoded diff array. -/
def strsOfPyList : PyList → Except String (List String)
  | .nil => .ok []
  | .cons (.str s) tl => do
    let rest ← strsOfPyList tl
    .ok (s.content :: rest)
  | .cons _ _ => .error "TypeError: diff entries must be strings"

/-- Decode the diff keyword. -/
def argDiff : Option PyVal → Except String (Option (List String))
  | Option.none => .ok Option.none
  | Option.some .none => .ok Option.none
  | Option.some (.seq .list xs) => do
    let ss ← strsOfPyList xs
    .ok (Option.some ss)
  | _ => .error "TypeError: expected a list of strings or null"

/-- True when every key of the dict is in the allowed keyword list;
Python raises TypeError on an unexpected keyword argument. -/
def keysAllowed (xs : PyDict) (allowed : List String) : Bool :=
  match xs with
  | .nil => true
  | .cons k _ tl => decide (k ∈ allowed) && keysAllowed tl allowed

/-- WorkItem(**values): bind each constructor keyword from the decoded
values dict (missing keys default to None) and run the constructor,
including its span validation. -/
def buildWorkItem (vals : PyDict) : Except String WorkItem := do
  if keysAllowed vals ["module_path", "operator_name", "occurrence", "start_pos", "end_pos", "job_id"] then
    let mp ← argPath (pyLookupLast vals "module_path")
    let op ← argOptStr (pyLookupLast vals "operator_name")
    let occ ← argOptInt (pyLookupLast vals "occurrence")
    let sp ← argPos (pyLookupLast vals "start_pos")
    let ep ← argPos (pyLookupLast vals "end_pos")
    let jid ← argOptStr (pyLookupLast vals "job_id")
    WorkItem.make mp op occ sp ep jid
  else
    .error "TypeError: unexpected keyword argument"

/-- WorkResult(**values): bind the constructor keywords and run the
constructor, including its missing-worker-outcome check. -/
def buildWorkResult (vals : PyDict) : Except String WorkResult := do
  if keysAllowed vals ["worker_outcome", "output", "test_outcome", "diff"] then
    let wo ← argOptPyStr (pyLookupLast vals "worker_outcome")
    let out ← argOptStr (pyLookupLast vals "output")
    let tst ← argOptPyStr (pyLookupLast vals "test_outcome")
    let df ← argDiff (pyLookupLast vals "diff")
    WorkResult.make wo out tst df
  else
    .error "TypeError: unexpected keyword argument"

/-- The comparison obj.get of the _type key against a tag literal.  The
decoded value can be any Python value: comparing a non-string gives
False, but comparing a decoded WorkItem or WorkResult runs their __eq__
against a plain string, which raises AttributeError. -/
def tagEq (v : PyVal) (tag : String) : Except String Bool :=
  match v with
  | .workItem _ => .error "AttributeError: no attribute as_dict"
  | .workResult _ => .error "AttributeError: no attribute as_dict"
  | .str s => .ok (decide (s.content = tag))
  | _ => .ok false

/-- obj.get applied to a possibly missing key, compared to a tag. -/
def tagIs (v : Option PyVal) (tag : String) : Except String Bool :=
  match v with
  | Option.none => .ok false
  | Option.some w => tagEq w tag

/-- The values entry must be a mapping to be splatted as keyword
arguments. -/
def asMapping : PyVal → Except String PyDict
  | .dict d => .ok d
  | _ => .error "TypeError: argument after ** must be a mapping"

/-- _decode_work_items, the object hook: on a dict whose _type is the
WorkItem (or WorkResult) tag and that has a values key, rebuild the
object from the values; otherwise pass the dict through unchanged. -/
def decodeHook (d : PyDict) : Except String PyVal := do
  let isWI ← tagIs (pyLookupLast d "_type") "WorkItem"
  match isWI, pyLookupLast d "values" with
  | true, Option.some v => do
    let vals ← asMapping v
    let wi ← buildWorkItem vals
    .ok (.workItem wi)
  | _, _ => do
    let isWR ← tagIs (pyLookupLast d "_type") "WorkResult"
    match isWR, pyLookupLast d "values" with
    | true, Option.some v => do
      let vals ← asMapping v
      let wr ← buildWorkResult vals
      .ok (.workResult wr)
    | _, _ => .ok (.dict d)

/-!
json.loads with the hook installed: parse generically, applying the hook
to every object bottom-up, so nested envelopes resolve before their
containers.  Errors raised by the hook (or by the constructors it calls)
propagate out of the decode.
-/

mutual
def decodeJ : JVal → Except String PyVal
  | .null => .ok .none
  | .bool b => .ok (.bool b)
  | .num n => .ok (.int n)
  | .str s => .ok (.str (.plain s))
  | .arr xs => do
    let vs ← decodeJList xs
    .ok (.seq .list vs)
  | .obj xs => do
    let d ← decodeJObj xs
    decodeHook d
def decodeJList : JList → Except String PyList
  | .nil => .ok .nil
  | .cons v tl => do
    let w ← decodeJ v
    let ws ← decodeJList tl
    .ok (.cons w ws)
def decodeJObj : JObj → Except String PyDict
  | .nil => .ok .nil
  | .cons k v tl => do
    let w ← decodeJ v
    let ws ← decodeJObj tl
    .ok (.cons k w ws)
end

/-- Lookup in a JSON object, with the same last-binding-wins semantics a
parsed Python dict has. -/
def jLookupLast (xs : JObj) (k : String) : Option JVal :=
  match xs with
  | .nil => Option.none
  | .cons key v tl =>
    match jLookupLast tl k with
    | Option.some w => Option.some w
    | Option.none => if key = k then Option.some v else Option.none

/-- Whether a JSON object is a recognizable envelope: its _type key is
the literal string WorkItem or WorkResult and it has a values key. -/
def isEnvelope (xs : JObj) : Bool :=
  (match jLookupLast xs "_type" with
   | Option.some (.str s) => decide (s = "WorkItem") || decide (s = "WorkResult")
   | _ => false) &&
  (jLookupLast xs "values").isSome

mutual
def noEnvelopeJ : JVal → Bool
  | .null => true
  | .bool _ => true
  | .num _ => true
  | .str _ => true
  | .arr xs => noEnvelopeJList xs
  | .obj xs => !(isEnvelope xs) && noEnvelopeJObj xs
def noEnvelopeJList : JList → Bool
  | .nil => true
  | .cons v tl => noEnvelopeJ v && noEnvelopeJList tl
def noEnvelopeJObj : JObj → Bool
  | .nil => true
  | .cons _ v tl => noEnvelopeJ v && noEnvelopeJObj tl
end

/-!
The discovery test runner (cosmic_ray/testing/unittest_runner.py).

Modelled from the spec: the TestRunner base class (test_runner.py) is not
part of the sources; per the Test Runner Contract its run entry point
over a test directory produces the pair returned by the implementation
hook _run.  The unittest machinery itself is modelled abstractly: test
discovery over the directory yields a suite, a list of tests in
execution order, each carrying its identifier string and its verdict
(pass, assertion failure with a detail string, or error with a detail
string).  Executing the suite against a fresh unittest.TestResult
appends each erroring test to result.errors and each failing test to
result.failures, in execution order, and wasSuccessful is true exactly
when both lists are empty.
-/

/-- The verdict of one discovered test. -/
inductive TestVerdict where
  | pass
  | failed (detail : String)
  | errored (detail : String)
deriving DecidableEq, Repr

/-- A discovered suite: tests in execution order, with identifiers. -/
abbrev Suite : Type := List (String × TestVerdict)

/-- The accumulating unittest.TestResult state: the errors and failures
lists, each holding (test identifier, detail) pairs. -/
structure UnitTestResult where
  errors : List (String × String)
  failures : List (String × String)
deriving DecidableEq, Repr

/-- suite.run(result): run the tests in order, appending to the errors
list on an error and to the failures list on an assertion failure. -/
def runSuite : Suite → UnitTestResult → UnitTestResult
  | [], res => res
  | (tid, v) :: rest, res =>
    match v with
    | .pass => runSuite rest res
    | .failed d => runSuite rest ⟨res.errors, res.failures ++ [(tid, d)]⟩
    | .errored d => runSuite rest ⟨res.errors ++ [(tid, d)], res.failures⟩

/-- unittest.TestResult.wasSuccessful: no failures and no errors. -/
def UnitTestResult.wasSuccessful (res : UnitTestResult) : Bool :=
  decide (res.failures = []) && decide (res.errors = [])

/-- Modelled from the spec: the TestRunner base class (test_runner.py)
is missing from the sources, and per the Test Runner Contract its run
entry point returns what the implementation hook produces, so this is
UnittestRunner._run over the discovered suite: run the suite against a
fresh result and return wasSuccessful together with the chained errors
and failures rendered as (identifier, detail) pairs. -/
def unittestRunnerRun (suite : Suite) : Bool × List (String × String) :=
  let result := runSuite suite ⟨[], []⟩
  (result.wasSuccessful, (result.errors ++ result.failures).map (fun r => (r.1, r.2)))

/-- Whether a test passed. -/
def TestVerdict.isPass : TestVerdict → Bool
  | .pass => true
  | _ => false

/-- The (identifier, detail) pairs of the erroring tests of a suite, in
order. -/
def suiteErrors (suite : Suite) : List (String × String) :=
  suite.filterMap (fun t =>
    match t.2 with
    | .errored d => Option.some (t.1, d)
    | _ => Option.none)

/-- The (identifier, detail) pairs of the failing tests of a suite, in
order. -/
def suiteFailures (suite : Suite) : List (String × String) :=
  suite.filterMap (fun t =>
    match t.2 with
    | .failed d => Option.some (t.1, d)
    | _ => Option.none)

/-- Helper for stating whether a construction succeeded. -/
def exceptOk {α : Type} : Except String α → Bool
  | .ok _ => true
  | .error _ => false

/-- Replace an optional Python string value by the plain string with the
same content: what an enum member becomes after a trip through JSON. -/
def plainContent : Option PyStr → Option PyStr
  | Option.none => Option.none
  | Option.some s => Option.some (.plain s.content)

/-!
Helper lemmas.  These relate the recursive definitions above to the
field-level characterizations used by the claim theorems.
-/

theorem pyEq_optStrPy (x y : Option String) :
    pyEqVal (optStrPy x) (optStrPy y) = decide (x = y) := by
  cases x <;> cases y <;> simp [optStrPy, pyEqVal, PyStr.content]

theorem pyEq_optPyStrPy (x y : Option PyStr) :
    pyEqVal (optPyStrPy x) (optPyStrPy y) = decide (optContent x = optContent y) := by
  cases x <;> cases y <;> simp [optPyStrPy, pyEqVal, optContent]

theorem pyEq_optIntPy (x y : Option Int) :
    pyEqVal (optIntPy x) (optIntPy y) = decide (x = y) := by
  cases x <;> cases y <;> simp [optIntPy, pyEqVal]

theorem pyEq_posPy (p q : PyPos) :
    pyEqVal (posPy p) (posPy q) = decide (p = q) := by
  obtain ⟨k1, l1, c1⟩ := p
  obtain ⟨k2, l2, c2⟩ := q
  simp [posPy, pyEqVal, pyEqList, PyPos.mk.injEq, Bool.decide_and, Bool.and_assoc]

theorem pyEqList_pyStrList (xs ys : List String) :
    pyEqList (pyStrList xs) (pyStrList ys) = decide (xs = ys) := by
  induction xs generalizing ys with
  | nil => cases ys <;> simp [pyStrList, pyEqList]
  | cons a as ih =>
    cases ys with
    | nil => simp [pyStrList, pyEqList]
    | cons b bs =>
      simp [pyStrList, pyEqList, pyEqVal, PyStr.content, ih, Bool.decide_and]

theorem pyEq_diffPy (x y : Option (List String)) :
    pyEqVal (diffPy x) (diffPy y) = decide (x = y) := by
  cases x <;> cases y <;>
    simp [diffPy, pyEqVal, pyEqList_pyStrList]

theorem pyEq_as_dict_wi (a b : WorkItem) :
    pyEqVal a.as_dict b.as_dict = wiFieldsEq a b := by
  obtain ⟨mpa, opa, occa, ⟨ka1, la1, ca1⟩, ⟨ka2, la2, ca2⟩, jida⟩ := a
  obtain ⟨mpb, opb, occb, ⟨kb1, lb1, cb1⟩, ⟨kb2, lb2, cb2⟩, jidb⟩ := b
  simp [WorkItem.as_dict, pyEqVal, pyEqDict, pyEqList, pyDictLen, pyLookupLast,
    posPy, pyEq_optStrPy, pyEq_optIntPy, wiFieldsEq, PyStr.content,
    PyPos.mk.injEq, Bool.decide_and, Bool.and_assoc]

theorem pyEq_as_dict_wr (a b : WorkResult) :
    pyEqVal a.as_dict b.as_dict = wrFieldsEq a b := by
  obtain ⟨outa, tsta, woa, dfa⟩ := a
  obtain ⟨outb, tstb, wob, dfb⟩ := b
  simp [WorkResult.as_dict, pyEqVal, pyEqDict, pyDictLen, pyLookupLast,
    pyEq_optStrPy, pyEq_optPyStrPy, pyEq_diffPy, wrFieldsEq,
    Bool.and_assoc]

theorem make_ok_of_validSpan (mp : String) (op : Option String) (occ : Option Int)
    (sp ep : PyPos) (jid : Option String) (h : validSpan sp ep = true) :
    WorkItem.make mp op occ sp ep jid = .ok ⟨pathNorm mp, op, occ, sp, ep, jid⟩ := by
  simp only [validSpan, decide_eq_true_eq] at h
  unfold WorkItem.make
  rcases h with h | ⟨h1, h2⟩
  · rw [if_neg (by omega), if_neg (by omega)]
  · rw [if_neg (by omega), if_neg (by omega)]

theorem make_error_of_not_validSpan (mp : String) (op : Option String) (occ : Option Int)
    (sp ep : PyPos) (jid : Option String) (h : validSpan sp ep = false) :
    exceptOk (WorkItem.make mp op occ sp ep jid) = false := by
  simp only [validSpan, decide_eq_false_iff_not, not_or, not_and] at h
  unfold WorkItem.make
  by_cases h1 : sp.line > ep.line
  · rw [if_pos h1]
    rfl
  · rw [if_neg h1, if_pos (by omega)]
    rfl

theorem encodeList_pyStrList (xs : List String) :
    encodeList (pyStrList xs) = strListJ xs := by
  induction xs with
  | nil => rfl
  | cons a as ih => simp [pyStrList, encodeList, encode, strListJ, PyStr.content, ih]

theorem encode_optStrPy (o : Option String) : encode (optStrPy o) = optStrJ o := by
  cases o <;> rfl

theorem encode_optPyStrPy (o : Option PyStr) :
    encode (optPyStrPy o) = optStrJ (optContent o) := by
  cases o <;> rfl

theorem encode_optIntPy (o : Option Int) : encode (optIntPy o) = optIntJ o := by
  cases o <;> rfl

theorem encode_diffPy (o : Option (List String)) : encode (diffPy o) = diffJ o := by
  cases o with
  | none => rfl
  | some xs => simp [diffPy, encode, diffJ, encodeList_pyStrList]

/-- The values object emitted for a WorkItem is exactly the JSON encoding
of its as_dict, as written in WorkItemJsonEncoder.default. -/
theorem valuesJ_eq_encode_as_dict_wi (wi : WorkItem) :
    WorkItem.valuesJ wi = encode wi.as_dict := by
  simp [WorkItem.valuesJ, WorkItem.as_dict, encode, encodeDict,
    encode_optStrPy, encode_optIntPy, posJ, posPy, encodeList, PyStr.content]

/-- The values object emitted for a WorkResult is exactly the JSON
encoding of its as_dict. -/
theorem valuesJ_eq_encode_as_dict_wr (wr : WorkResult) :
    WorkResult.valuesJ wr = encode wr.as_dict := by
  simp [WorkResult.valuesJ, WorkResult.as_dict, encode, encodeDict,
    encode_optStrPy, encode_optPyStrPy, encode_diffPy, PyStr.content]

theorem decodeJList_strListJ (xs : List String) :
    decodeJList (strListJ xs) = .ok (pyStrList xs) := by
  induction xs with
  | nil => rfl
  | cons a as ih =>
    simp only [strListJ, decodeJList, decodeJ, ih]
    rfl

theorem strsOfPyList_pyStrList (xs : List String) :
    strsOfPyList (pyStrList xs) = .ok xs := by
  induction xs with
  | nil => rfl
  | cons a as ih =>
    simp only [pyStrList, strsOfPyList, PyStr.content, ih]
    rfl

theorem exceptBindOk {α β : Type} (a : α) (f : α → Except String β) :
    (Except.ok a >>= f) = f a := rfl

theorem argDiff_strs (xs : List String) :
    argDiff (Option.some (.seq .list (pyStrList xs))) = .ok (Option.some xs) := by
  simp only [argDiff, strsOfPyList_pyStrList]
  rfl

/-- Decoding the encoding of a WorkItem parses the envelope back and
reruns the constructor on the decoded values: the positions come back as
lists (JSON arrays parse as Python lists) and module_path goes through
pathlib.Path again. -/
theorem decode_encode_wi (wi : WorkItem) :
    decodeJ (encode (.workItem wi)) =
      Except.bind
        (WorkItem.make wi.module_path wi.operator_name wi.occurrence
          ⟨.list, wi.start_pos.line, wi.start_pos.col⟩
          ⟨.list, wi.end_pos.line, wi.end_pos.col⟩ wi.job_id)
        (fun w => .ok (.workItem w)) := by
  obtain ⟨mp, op, occ, ⟨k1, l1, c1⟩, ⟨k2, l2, c2⟩, jid⟩ := wi
  cases op <;> cases occ <;> cases jid <;> rfl

/-- Decoding the encoding of a WorkResult always succeeds and yields the
WorkResult whose string fields are the plain strings with the original
content (a str-mixin enum member comes back as its plain wire string). -/
theorem decode_encode_wr (wr : WorkResult) :
    decodeJ (encode (.workResult wr)) =
      .ok (.workResult ⟨wr.output, plainContent wr.test_outcome,
        .plain wr.worker_outcome.content, wr.diff⟩) := by
  obtain ⟨out, tst, wo, df⟩ := wr
  cases df with
  | none => cases out <;> cases tst <;> rfl
  | some xs =>
    cases out <;> cases tst <;>
      simp [encode, WorkResult.valuesJ, optStrJ, optContent, diffJ,
        decodeJ, decodeJObj, decodeJList_strListJ, exceptBindOk,
        decodeHook, pyLookupLast, tagIs, tagEq, asMapping, buildWorkResult,
        keysAllowed, argOptPyStr, argOptStr, argDiff_strs, WorkResult.make,
        plainContent, PyStr.content]

theorem pyLookup_generic : ∀ (xs : JObj) (k : String),
    pyLookupLast (genericParseObj xs) k = Option.map genericParse (jLookupLast xs k)
  | .nil, _ => rfl
  | .cons k2 v tl, k => by
    have ih := pyLookup_generic tl k
    simp only [genericParseObj, pyLookupLast, jLookupLast, ih]
    cases jLookupLast tl k with
    | some w => rfl
    | none =>
      by_cases hk : k2 = k
      · simp [hk]
      · simp [hk]

theorem tagIs_generic (o : Option JVal) (t : String) :
    tagIs (Option.map genericParse o) t =
      .ok (match o with
           | Option.some (.str s) => decide (s = t)
           | _ => false) := by
  cases o with
  | none => rfl
  | some v => cases v <;> rfl

theorem decodeHook_pass (xs : JObj) (h : isEnvelope xs = false) :
    decodeHook (genericParseObj xs) = .ok (.dict (genericParseObj xs)) := by
  unfold decodeHook
  simp only [pyLookup_generic, tagIs_generic, exceptBindOk]
  simp only [isEnvelope, Bool.and_eq_false_iff] at h
  rcases h with h | h
  · cases ht : jLookupLast xs "_type" with
    | none =>
      simp [ht]
    | some v =>
      cases v <;> simp_all
  · cases ht : jLookupLast xs "_type" with
    | none => simp [ht]
    | some v =>
      cases hv : jLookupLast xs "values" with
      | none => cases v <;> simp [ht, hv]
      | some w => simp_all

mutual
theorem decodeJ_noEnv : ∀ j : JVal, noEnvelopeJ j = true → decodeJ j = .ok (genericParse j)
  | .null, _ => rfl
  | .bool _, _ => rfl
  | .num _, _ => rfl
  | .str _, _ => rfl
  | .arr xs, h => by
    have hx : noEnvelopeJList xs = true := by
      simpa [noEnvelopeJ] using h
    simp only [decodeJ, genericParse, decodeJList_noEnv xs hx, exceptBindOk]
  | .obj xs, h => by
    have hx : isEnvelope xs = false ∧ noEnvelopeJObj xs = true := by
      have h2 := h
      simp only [noEnvelopeJ, Bool.and_eq_true, Bool.not_eq_true'] at h2
      exact h2
    simp only [decodeJ, genericParse, decodeJObj_noEnv xs hx.2, exceptBindOk,
      decodeHook_pass xs hx.1]
theorem decodeJList_noEnv : ∀ xs : JList, noEnvelopeJList xs = true → decodeJList xs = .ok (genericParseList xs)
  | .nil, _ => rfl
  | .cons v tl, h => by
    have hx : noEnvelopeJ v = true ∧ noEnvelopeJList tl = true := by
      have h2 := h
      simp only [noEnvelopeJList, Bool.and_eq_true] at h2
      exact h2
    simp only [decodeJList, genericParseList, decodeJ_noEnv v hx.1,
      decodeJList_noEnv tl hx.2, exceptBindOk]
theorem decodeJObj_noEnv : ∀ xs : JObj, noEnvelopeJObj xs = true → decodeJObj xs = .ok (genericParseObj xs)
  | .nil, _ => rfl
  | .cons k v tl, h => by
    have hx : noEnvelopeJ v = true ∧ noEnvelopeJObj tl = true := by
      have h2 := h
      simp only [noEnvelopeJObj, Bool.and_eq_true] at h2
      exact h2
    simp only [decodeJObj, genericParseObj, decodeJ_noEnv v hx.1,
      decodeJObj_noEnv tl hx.2, exceptBindOk]
end

theorem runSuite_append (ts : Suite) (es fs : List (String × String)) :
    runSuite ts ⟨es, fs⟩ = ⟨es ++ suiteErrors ts, fs ++ suiteFailures ts⟩ := by
  induction ts generalizing es fs with
  | nil => simp [runSuite, suiteErrors, suiteFailures]
  | cons t rest ih =>
    obtain ⟨tid, v⟩ := t
    cases v <;>
      simp [runSuite, suiteErrors, suiteFailures, ih, List.filterMap_cons]

theorem suiteEmpty_iff_allPass (ts : Suite) :
    (decide (suiteFailures ts = []) && decide (suiteErrors ts = [])) =
      ts.all (fun t => t.2.isPass) := by
  induction ts with
  | nil => rfl
  | cons t rest ih =>
    obtain ⟨tid, v⟩ := t
    cases v <;>
      simp_all [suiteErrors, suiteFailures, List.filterMap_cons, TestVerdict.isPass]

theorem suiteLen_counts (ts : Suite) :
    (suiteErrors ts).length + (suiteFailures ts).length =
      ts.countP (fun t => !(t.2.isPass)) := by
  induction ts with
  | nil => rfl
  | cons t rest ih =>
    obtain ⟨tid, v⟩ := t
    cases v <;>
      simp_all [suiteErrors, suiteFailures, List.filterMap_cons,
        TestVerdict.isPass, List.countP_cons] <;> omega

/-!
Claim theorems.
-/

/-- C3: for every WorkResult, is_killed equals (test_outcome != survived):
it is true when test_outcome is killed, true when incompetent, true when
absent, and false exactly when test_outcome is survived (whether the
stored value is the enum member or the plain wire string). -/
theorem claim_C3 : ∀ (wr : WorkResult) (out : Option String) (wo : PyStr)
    (df : Option (List String)),
    wr.is_killed =
      !(decide (optContent wr.test_outcome = Option.some TestOutcome.SURVIVED.value)) ∧
    (WorkResult.mk out Option.none wo df).is_killed = true ∧
    (WorkResult.mk out (Option.some TestOutcome.SURVIVED.py) wo df).is_killed = false ∧
    (WorkResult.mk out (Option.some TestOutcome.KILLED.py) wo df).is_killed = true ∧
    (WorkResult.mk out (Option.some TestOutcome.INCOMPETENT.py) wo df).is_killed = true ∧
    (WorkResult.mk out (Option.some (.plain "survived")) wo df).is_killed = false := by
  intro wr out wo df
  refine ⟨?_, rfl, rfl, rfl, rfl, rfl⟩
  obtain ⟨o, tst, w, d⟩ := wr
  cases tst <;> simp [WorkResult.is_killed, optContent]

/-- C4: WorkResult construction fails with the missing-worker-outcome
error exactly when worker_outcome is absent; when it is present the four
fields (worker_outcome, output, test_outcome, diff) are stored
unchanged. -/
theorem claim_C4 : ∀ (out : Option String) (tst : Option PyStr)
    (df : Option (List String)) (wo : PyStr),
    WorkResult.make Option.none out tst df =
      .error "Worker outcome must always have a value." ∧
    exceptOk (WorkResult.make Option.none out tst df) = false ∧
    WorkResult.make (Option.some wo) out tst df = .ok ⟨out, tst, wo, df⟩ ∧
    exceptOk (WorkResult.make (Option.some wo) out tst df) = true :=
  fun _ _ _ _ => ⟨rfl, rfl, rfl, rfl⟩

/-- C5: equality of WorkItems and of WorkResults is decided by the full
structural value of every field (there is no identity in the model, so
two instances with identical fields are the same value and compare
equal); the comparison returns true exactly when every field agrees,
where the string-valued fields of a WorkResult agree when their character
content agrees. -/
theorem claim_C5 : ∀ (a b : WorkItem) (r s : WorkResult),
    WorkItem.eqPy a (.workItem b) = .ok (wiFieldsEq a b) ∧
    WorkResult.eqPy r (.workResult s) = .ok (wrFieldsEq r s) := by
  intro a b r s
  constructor
  · simp only [WorkItem.eqPy, asDictOf, pyEq_as_dict_wi]
  · simp only [WorkResult.eqPy, asDictOf, pyEq_as_dict_wr]

/-- C9: every WorkerOutcome and TestOutcome member compares equal, under
Python equality, to its wire string literal, because the members are
string values; consequently a WorkResult holding enum members is
structurally equal to one holding the corresponding plain strings. -/
theorem claim_C9 :
    pyEqVal (.str WorkerOutcome.NORMAL.py) (.str (.plain "normal")) = true ∧
    pyEqVal (.str WorkerOutcome.EXCEPTION.py) (.str (.plain "exception")) = true ∧
    pyEqVal (.str WorkerOutcome.ABNORMAL.py) (.str (.plain "abnormal")) = true ∧
    pyEqVal (.str WorkerOutcome.NO_TEST.py) (.str (.plain "no-test")) = true ∧
    pyEqVal (.str WorkerOutcome.SKIPPED.py) (.str (.plain "skipped")) = true ∧
    pyEqVal (.str TestOutcome.SURVIVED.py) (.str (.plain "survived")) = true ∧
    pyEqVal (.str TestOutcome.KILLED.py) (.str (.plain "killed")) = true ∧
    pyEqVal (.str TestOutcome.INCOMPETENT.py) (.str (.plain "incompetent")) = true ∧
    (∀ (wo : WorkerOutcome) (tso : TestOutcome) (out : Option String)
        (df : Option (List String)),
      WorkResult.eqPy ⟨out, Option.some tso.py, wo.py, df⟩
        (.workResult ⟨out, Option.some (.plain tso.value), .plain wo.value, df⟩) =
          .ok true) := by
  refine ⟨rfl, rfl, rfl, rfl, rfl, rfl, rfl, rfl, ?_⟩
  intro wo tso out df
  simp [WorkResult.eqPy, asDictOf, pyEq_as_dict_wr, wrFieldsEq, optContent,
    WorkerOutcome.py, TestOutcome.py, PyStr.content]

/-- C10: comparing a WorkItem or WorkResult for equality against a value
that does not provide as_dict raises (it never returns false): the
comparison returns a value exactly when the right-hand side provides
as_dict, and otherwise it is the AttributeError. -/
theorem claim_C10 : ∀ (wi : WorkItem) (wr : WorkResult) (v : PyVal),
    exceptOk (wi.eqPy v) = (asDictOf v).isSome ∧
    exceptOk (wr.eqPy v) = (asDictOf v).isSome ∧
    wi.eqPy PyVal.none = .error "AttributeError: no attribute as_dict" ∧
    wr.eqPy (.str (.plain "x")) = .error "AttributeError: no attribute as_dict" := by
  intro wi wr v
  refine ⟨?_, ?_, rfl, rfl⟩ <;> cases v <;> rfl

/-- C7: the WorkResult with worker_outcome exception, the Traceback
output, and absent test_outcome and diff encodes to exactly the tagged
envelope whose values object binds worker_outcome to exception, output
to the Traceback text, and test_outcome and diff to null (JSON object
key order is not significant; the lookups below state each binding), and
decoding that envelope yields a WorkResult equal to the original. -/
theorem claim_C7 :
    WorkResult.make (Option.some (.plain "exception")) (Option.some "Traceback...")
        Option.none Option.none =
      .ok ⟨Option.some "Traceback...", Option.none, .plain "exception", Option.none⟩ ∧
    encode (.workResult ⟨Option.some "Traceback...", Option.none, .plain "exception", Option.none⟩) =
      .obj (.cons "_type" (.str "WorkResult")
        (.cons "values"
          (.obj (.cons "output" (.str "Traceback...")
            (.cons "test_outcome" .null
              (.cons "worker_outcome" (.str "exception")
                (.cons "diff" .null .nil))))) .nil)) ∧
    jLookupLast (.cons "output" (.str "Traceback...")
        (.cons "test_outcome" .null
          (.cons "worker_outcome" (.str "exception")
            (.cons "diff" .null .nil)))) "worker_outcome" = Option.some (.str "exception") ∧
    jLookupLast (.cons "output" (.str "Traceback...")
        (.cons "test_outcome" .null
          (.cons "worker_outcome" (.str "exception")
            (.cons "diff" .null .nil)))) "output" = Option.some (.str "Traceback...") ∧
    jLookupLast (.cons "output" (.str "Traceback...")
        (.cons "test_outcome" .null
          (.cons "worker_outcome" (.str "exception")
            (.cons "diff" .null .nil)))) "test_outcome" = Option.some .null ∧
    jLookupLast (.cons "output" (.str "Traceback...")
        (.cons "test_outcome" .null
          (.cons "worker_outcome" (.str "exception")
            (.cons "diff" .null .nil)))) "diff" = Option.some .null ∧
    decodeJ (.obj (.cons "_type" (.str "WorkResult")
        (.cons "values"
          (.obj (.cons "output" (.str "Traceback...")
            (.cons "test_outcome" .null
              (.cons "worker_outcome" (.str "exception")
                (.cons "diff" .null .nil))))) .nil))) =
      .ok (.workResult ⟨Option.some "Traceback...", Option.none, .plain "exception", Option.none⟩) ∧
    WorkResult.eqPy ⟨Option.some "Traceback...", Option.none, .plain "exception", Option.none⟩
        (.workResult ⟨Option.some "Traceback...", Option.none, .plain "exception", Option.none⟩) =
      .ok true :=
  ⟨rfl, rfl, rfl, rfl, rfl, rfl, rfl, rfl⟩

/-- C8: the discovery runner returns success exactly when every
discovered test passed (no failure and no error), and its second
component is the single combined, order-preserving list of
(identifier, detail) pairs, the erroring tests followed by the failing
tests, with one entry per failing or erroring test and no distinction
between errors and assertion failures in the list. -/
theorem claim_C8 : ∀ (suite : Suite),
    (unittestRunnerRun suite).1 = suite.all (fun t => t.2.isPass) ∧
    (unittestRunnerRun suite).2 = suiteErrors suite ++ suiteFailures suite ∧
    (unittestRunnerRun suite).2.length = suite.countP (fun t => !(t.2.isPass)) := by
  intro suite
  unfold unittestRunnerRun
  rw [runSuite_append]
  refine ⟨?_, ?_, ?_⟩
  · simpa [UnitTestResult.wasSuccessful] using suiteEmpty_iff_allPass suite
  · simp
  · simp [suiteLen_counts]

/-- C2: the claim as stated is false: when the module_path string is not
already in pathlib normal form, as_dict does not report the value given
at construction.  With module_path a//b.py and a valid span, construction
succeeds but as_dict reports module_path a/b.py, because the constructor
stores pathlib.Path(module_path) and as_dict renders its str. -/
theorem claim_C2_counterexample :
    WorkItem.make "a//b.py" (Option.some "op") (Option.some 0)
        ⟨.tuple, 1, 0⟩ ⟨.tuple, 1, 5⟩ (Option.some "j1") =
      .ok ⟨"a/b.py", Option.some "op", Option.some 0,
        ⟨.tuple, 1, 0⟩, ⟨.tuple, 1, 5⟩, Option.some "j1"⟩ ∧
    (WorkItem.mk "a/b.py" (Option.some "op") (Option.some 0)
        ⟨.tuple, 1, 0⟩ ⟨.tuple, 1, 5⟩ (Option.some "j1")).as_dict =
      .dict (.cons "module_path" (.str (.plain "a/b.py"))
        (.cons "operator_name" (.str (.plain "op"))
          (.cons "occurrence" (.int 0)
            (.cons "start_pos" (.seq .tuple (.cons (.int 1) (.cons (.int 0) .nil)))
              (.cons "end_pos" (.seq .tuple (.cons (.int 1) (.cons (.int 5) .nil)))
                (.cons "job_id" (.str (.plain "j1")) .nil)))))) ∧
    decide (("a/b.py" : String) = "a//b.py") = false :=
  ⟨rfl, rfl, rfl⟩

/-- C2 (amended): for every pair (start_pos, end_pos) satisfying the
ordering invariant (start line before end line, or same line and start
column strictly before end column), WorkItem construction succeeds and
as_dict reports exactly the values given for operator_name, occurrence,
start_pos, end_pos and job_id, and reports module_path as the
pathlib-normalized form of the given string (equal to the given string
whenever it is already a normal path); for every violating pair,
construction fails. -/
theorem claim_C2 : ∀ (mp : String) (op : Option String) (occ : Option Int)
    (sp ep : PyPos) (jid : Option String),
    (validSpan sp ep = true →
      WorkItem.make mp op occ sp ep jid = .ok ⟨pathNorm mp, op, occ, sp, ep, jid⟩ ∧
      (WorkItem.mk (pathNorm mp) op occ sp ep jid).as_dict =
        .dict (.cons "module_path" (.str (.plain (pathNorm mp)))
          (.cons "operator_name" (optStrPy op)
            (.cons "occurrence" (optIntPy occ)
              (.cons "start_pos" (posPy sp)
                (.cons "end_pos" (posPy ep)
                  (.cons "job_id" (optStrPy jid) .nil))))))) ∧
    (validSpan sp ep = false →
      exceptOk (WorkItem.make mp op occ sp ep jid) = false) :=
  fun mp op occ sp ep jid =>
    ⟨fun h => ⟨make_ok_of_validSpan mp op occ sp ep jid h, rfl⟩,
     fun h => make_error_of_not_validSpan mp op occ sp ep jid h⟩

/-- C2 witness: a valid span at which construction succeeds with the
reported values, and an invalid span at which construction fails. -/
theorem claim_C2_witness :
    validSpan ⟨SeqKind.tuple, 1, 0⟩ ⟨SeqKind.tuple, 1, 5⟩ = true ∧
    WorkItem.make "a.py" (Option.some "op") (Option.some 0)
        ⟨SeqKind.tuple, 1, 0⟩ ⟨SeqKind.tuple, 1, 5⟩ (Option.some "j1") =
      .ok ⟨pathNorm "a.py", Option.some "op", Option.some 0,
        ⟨SeqKind.tuple, 1, 0⟩, ⟨SeqKind.tuple, 1, 5⟩, Option.some "j1"⟩ ∧
    validSpan ⟨SeqKind.tuple, 2, 0⟩ ⟨SeqKind.tuple, 1, 5⟩ = false ∧
    exceptOk (WorkItem.make "a.py" Option.none Option.none
        ⟨SeqKind.tuple, 2, 0⟩ ⟨SeqKind.tuple, 1, 5⟩ Option.none) = false :=
  ⟨by decide,
   ((claim_C2 "a.py" (Option.some "op") (Option.some 0)
      ⟨SeqKind.tuple, 1, 0⟩ ⟨SeqKind.tuple, 1, 5⟩ (Option.some "j1")).1 (by decide)).1,
   by decide,
   (claim_C2 "a.py" Option.none Option.none
      ⟨SeqKind.tuple, 2, 0⟩ ⟨SeqKind.tuple, 1, 5⟩ Option.none).2 (by decide)⟩

/-- C6: decoding a JSON document containing no object whose _type is
WorkItem or WorkResult together with a values key succeeds and returns
the generically parsed structure unchanged: the passthrough is not an
error. -/
theorem claim_C6 : ∀ j : JVal, noEnvelopeJ j = true →
    decodeJ j = .ok (genericParse j) :=
  fun j h => decodeJ_noEnv j h

/-- C6 witness: a document with an object that has a WorkItem _type but
no values key, a nested array, and a nested plain object decodes to its
generic parse. -/
theorem claim_C6_witness :
    noEnvelopeJ (.obj (.cons "_type" (.str "WorkItem")
      (.cons "a" (.num 1)
        (.cons "b" (.arr (.cons (.str "x") (.cons .null .nil)))
          (.cons "c" (.obj (.cons "d" (.bool true) .nil)) .nil))))) = true ∧
    decodeJ (.obj (.cons "_type" (.str "WorkItem")
      (.cons "a" (.num 1)
        (.cons "b" (.arr (.cons (.str "x") (.cons .null .nil)))
          (.cons "c" (.obj (.cons "d" (.bool true) .nil)) .nil))))) =
      .ok (genericParse (.obj (.cons "_type" (.str "WorkItem")
        (.cons "a" (.num 1)
          (.cons "b" (.arr (.cons (.str "x") (.cons .null .nil)))
            (.cons "c" (.obj (.cons "d" (.bool true) .nil)) .nil)))))) :=
  ⟨rfl,
   claim_C6 (.obj (.cons "_type" (.str "WorkItem")
      (.cons "a" (.num 1)
        (.cons "b" (.arr (.cons (.str "x") (.cons .null .nil)))
          (.cons "c" (.obj (.cons "d" (.bool true) .nil)) .nil))))) rfl⟩

/-- C1: the claim as stated is false: a WorkItem whose positions are
tuples (the documented position representation) does not survive the
round trip up to Python equality, because JSON serializes tuples as
arrays and arrays parse back as lists, and a tuple never equals a list.
The WorkItem below is built by the constructor with tuple positions,
decodes to the list-position WorkItem, and the equality comparison of
the two returns false. -/
theorem claim_C1_counterexample :
    WorkItem.make "a.py" (Option.some "NumberReplacer") (Option.some 0)
        ⟨.tuple, 1, 0⟩ ⟨.tuple, 1, 5⟩ (Option.some "j1") =
      .ok ⟨"a.py", Option.some "NumberReplacer", Option.some 0,
        ⟨.tuple, 1, 0⟩, ⟨.tuple, 1, 5⟩, Option.some "j1"⟩ ∧
    decodeJ (encode (.workItem ⟨"a.py", Option.some "NumberReplacer", Option.some 0,
        ⟨.tuple, 1, 0⟩, ⟨.tuple, 1, 5⟩, Option.some "j1"⟩)) =
      .ok (.workItem ⟨"a.py", Option.some "NumberReplacer", Option.some 0,
        ⟨.list, 1, 0⟩, ⟨.list, 1, 5⟩, Option.some "j1"⟩) ∧
    WorkItem.eqPy ⟨"a.py", Option.some "NumberReplacer", Option.some 0,
        ⟨.tuple, 1, 0⟩, ⟨.tuple, 1, 5⟩, Option.some "j1"⟩
      (.workItem ⟨"a.py", Option.some "NumberReplacer", Option.some 0,
        ⟨.list, 1, 0⟩, ⟨.list, 1, 5⟩, Option.some "j1"⟩) = .ok false :=
  ⟨rfl, rfl, rfl⟩

/-- C1 (amended): decode of encode is the identity up to Python equality
for every WorkResult (all combinations of present and absent optional
fields, enum members included), and for every constructor-reachable
WorkItem whose start_pos and end_pos are lists; a WorkItem with tuple
positions instead decodes to a value that compares unequal (see the
counterexample).  Constructor reachability is the stored module_path
being in pathlib normal form together with the span invariant. -/
theorem claim_C1 : ∀ (wr : WorkResult) (wi : WorkItem),
    (∃ wr2 : WorkResult, decodeJ (encode (.workResult wr)) = .ok (.workResult wr2) ∧
      WorkResult.eqPy wr (.workResult wr2) = .ok true) ∧
    (pathNorm wi.module_path = wi.module_path →
      validSpan wi.start_pos wi.end_pos = true →
      wi.start_pos.kind = .list → wi.end_pos.kind = .list →
      ∃ wi2 : WorkItem, decodeJ (encode (.workItem wi)) = .ok (.workItem wi2) ∧
        WorkItem.eqPy wi (.workItem wi2) = .ok true) := by
  intro wr wi
  constructor
  · refine ⟨⟨wr.output, plainContent wr.test_outcome,
      .plain wr.worker_outcome.content, wr.diff⟩, decode_encode_wr wr, ?_⟩
    obtain ⟨out, tst, wo, df⟩ := wr
    cases tst <;>
      simp [WorkResult.eqPy, asDictOf, pyEq_as_dict_wr, wrFieldsEq,
        optContent, plainContent, PyStr.content]
  · intro hmp hspan hk1 hk2
    obtain ⟨mp, op, occ, ⟨k1, l1, c1⟩, ⟨k2, l2, c2⟩, jid⟩ := wi
    simp only at hmp hspan hk1 hk2
    subst hk1
    subst hk2
    refine ⟨⟨pathNorm mp, op, occ, ⟨.list, l1, c1⟩, ⟨.list, l2, c2⟩, jid⟩, ?_, ?_⟩
    · rw [decode_encode_wi]
      simp only
      rw [make_ok_of_validSpan mp op occ ⟨.list, l1, c1⟩ ⟨.list, l2, c2⟩ jid hspan]
      rfl
    · simp [WorkItem.eqPy, asDictOf, pyEq_as_dict_wi, wiFieldsEq, hmp]

/-- C1 witness: a WorkResult with every optional field present and enum
members stored, and a list-position WorkItem, both of which round-trip
to equal values. -/
theorem claim_C1_witness :
    pathNorm "a.py" = "a.py" ∧
    validSpan ⟨SeqKind.list, 1, 0⟩ ⟨SeqKind.list, 1, 5⟩ = true ∧
    (∃ wr2 : WorkResult,
      decodeJ (encode (.workResult ⟨Option.some "out1", Option.some TestOutcome.KILLED.py,
          WorkerOutcome.NORMAL.py, Option.some ["-a", "+b"]⟩)) = .ok (.workResult wr2) ∧
      WorkResult.eqPy ⟨Option.some "out1", Option.some TestOutcome.KILLED.py,
          WorkerOutcome.NORMAL.py, Option.some ["-a", "+b"]⟩ (.workResult wr2) = .ok true) ∧
    (∃ wi2 : WorkItem,
      decodeJ (encode (.workItem ⟨"a.py", Option.some "op", Option.some 0,
          ⟨SeqKind.list, 1, 0⟩, ⟨SeqKind.list, 1, 5⟩, Option.some "j1"⟩)) = .ok (.workItem wi2) ∧
      WorkItem.eqPy ⟨"a.py", Option.some "op", Option.some 0,
          ⟨SeqKind.list, 1, 0⟩, ⟨SeqKind.list, 1, 5⟩, Option.some "j1"⟩ (.workItem wi2) = .ok true) :=
  ⟨by decide, by decide,
   (claim_C1 ⟨Option.some "out1", Option.some TestOutcome.KILLED.py,
      WorkerOutcome.NORMAL.py, Option.some ["-a", "+b"]⟩
     ⟨"a.py", Option.some "op", Option.some 0,
      ⟨SeqKind.list, 1, 0⟩, ⟨SeqKind.list, 1, 5⟩, Option.some "j1"⟩).1,
   (claim_C1 ⟨Option.some "out1", Option.some TestOutcome.KILLED.py,
      WorkerOutcome.NORMAL.py, Option.some ["-a", "+b"]⟩
     ⟨"a.py", Option.some "op", Option.some 0,
      ⟨SeqKind.list, 1, 0⟩, ⟨SeqKind.list, 1, 5⟩, Option.some "j1"⟩).2
     (by decide) (by decide) rfl rfl⟩
